import Mathlib

/-
Verification of the Lorentz-Transformation-Visualization repository.

The embedding below translates the two Python sources
(`dash_lorentz.py` and `lorentz_visualizer.py`) into Lean.  Machine
floats are embedded as exact real numbers; the discrete registry data
(snapped click coordinates, sidebar point inputs) is embedded with
exact integers and rationals so the registry operations stay
executable.  Non-finite float values (inf/NaN), which only arise in the
curve-evaluation path, are embedded as `Option ℝ` with `none` standing
for a non-finite sample.
-/

namespace Lorentz

/-- Elementwise embedding of `np.linspace(a, b, n)`: n evenly spaced
samples from a to b inclusive. -/
noncomputable def linspace (a b : ℝ) (n : ℕ) : List ℝ :=
  (List.range n).map (fun i : ℕ => a + (b - a) * (i : ℝ) / ((n : ℝ) - 1))

/-- The fixed sampling `np.linspace(-5, 5, 11)` used for the time axis
in both sources. -/
noncomputable def time_range : List ℝ := linspace (-5) 5 11

/-- The fixed sampling `np.linspace(-5, 5, 11)` used for the space axis
in both sources. -/
noncomputable def space_range : List ℝ := linspace (-5) 5 11

/-- The dense sampling `np.linspace(-5, 5, 100)` used for the light
cones in `dash_lorentz.py` (line 43). -/
noncomputable def time_values : List ℝ := linspace (-5) 5 100

/-- Embedding of `lorentz_transform(t, x, v)` (identical in
`dash_lorentz.py` lines 10-14 and `lorentz_visualizer.py` lines 39-43):
`gamma = 1/np.sqrt(1 - v**2)`, `t_prime = gamma*(t - v*x)`,
`x_prime = gamma*(x - v*t)`.  The function performs no validation of
`v`; the float division by zero at `|v| = 1` is embedded by Lean's
real-division convention `1/0 = 0`. -/
noncomputable def lorentz_transform (t x v : ℝ) : ℝ × ℝ :=
  let gamma := 1 / Real.sqrt (1 - v ^ 2)
  (gamma * (t - v * x), gamma * (x - v * t))

/-- The `boost1D` operation exactly as the specification words it
(spec section 4.1): `γ = 1/√(1−v²)`, `t' = γ(t − v·x)`,
`x' = γ(x − v·t)`.  Stated separately from `lorentz_transform` so the
code can be compared against the spec. -/
noncomputable def boost1D_spec (t x v : ℝ) : ℝ × ℝ :=
  (1 / Real.sqrt (1 - v ^ 2) * (t - v * x),
   1 / Real.sqrt (1 - v ^ 2) * (x - v * t))

/-- Claim C1: for `|v| < 1`, `lorentz_transform` returns exactly the
spec's boost pair `(γ(t − v·x), γ(x − v·t))` with `γ = 1/√(1−v²)`; the
two extra conjuncts witness that the coefficient really is the
multiplicative inverse of `√(1−v²)` (which is positive there). -/
theorem boost1D_matches_spec (t x v : ℝ) (h : |v| < 1) :
    lorentz_transform t x v = boost1D_spec t x v
    ∧ (lorentz_transform t x v).1 * Real.sqrt (1 - v ^ 2) = t - v * x
    ∧ (lorentz_transform t x v).2 * Real.sqrt (1 - v ^ 2) = x - v * t := by
  have h2 : 0 < 1 - v ^ 2 := by
    have hv : v ^ 2 < 1 := (sq_lt_one_iff_abs_lt_one v).mpr h
    linarith
  have hs : Real.sqrt (1 - v ^ 2) ≠ 0 :=
    ne_of_gt (Real.sqrt_pos.mpr h2)
  refine ⟨rfl, ?_, ?_⟩ <;>
  · simp only [lorentz_transform, one_div]
    field_simp

/-- Witness for C1 at `v = 1/2`, `(t, x) = (1, 2)`. -/
theorem boost1D_matches_spec_witness :
    |(1/2 : ℝ)| < 1
    ∧ (lorentz_transform 1 2 (1/2) = boost1D_spec 1 2 (1/2)
       ∧ (lorentz_transform 1 2 (1/2)).1 * Real.sqrt (1 - (1/2 : ℝ) ^ 2)
           = 1 - (1/2) * 2
       ∧ (lorentz_transform 1 2 (1/2)).2 * Real.sqrt (1 - (1/2 : ℝ) ^ 2)
           = 2 - (1/2) * 1) := by
  have h : |(1/2 : ℝ)| < 1 := by rw [abs_lt]; constructor <;> norm_num
  exact ⟨h, boost1D_matches_spec 1 2 (1/2) h⟩

/-- Claim C2 (code evaluated at the failing input): `lorentz_transform`
has no velocity validation and no error path.  Called with `v = 1` or
`v = -1` the radicand `1 - v^2` is exactly `0`, so the code divides by
`np.sqrt(0) = 0`; under IEEE floats this yields `inf`/`NaN`
coordinates, and under the exact-real embedding's division-by-zero
convention the unguarded formula evaluates to `(0, 0)`.  In neither
case is an `InvalidVelocity` error produced. -/
theorem invalid_velocity_unguarded :
    (1 - (1 : ℝ) ^ 2 = 0)
    ∧ lorentz_transform 0 1 1 = (0, 0)
    ∧ lorentz_transform 0 1 (-1) = (0, 0) := by
  refine ⟨by norm_num, ?_, ?_⟩ <;>
  · simp only [lorentz_transform]
    norm_num

/-- Claim C3: boosting by `v` and then by `-v` recovers the original
event exactly, over the real-number embedding, for every `|v| < 1`. -/
theorem boost1D_roundtrip (t x v : ℝ) (h : |v| < 1) :
    lorentz_transform (lorentz_transform t x v).1
      (lorentz_transform t x v).2 (-v) = (t, x) := by
  have h2 : 0 < 1 - v ^ 2 := by
    have hv : v ^ 2 < 1 := (sq_lt_one_iff_abs_lt_one v).mpr h
    linarith
  have hs : Real.sqrt (1 - v ^ 2) ≠ 0 :=
    ne_of_gt (Real.sqrt_pos.mpr h2)
  have hneg : (1 : ℝ) - (-v) ^ 2 = 1 - v ^ 2 := by ring
  simp only [lorentz_transform, hneg, one_div, Prod.mk.injEq]
  constructor
  · field_simp
    ring
  · field_simp
    ring

/-- Witness for C3 at `v = 1/2`, `(t, x) = (2, 3)`. -/
theorem boost1D_roundtrip_witness :
    |(1/2 : ℝ)| < 1
    ∧ lorentz_transform (lorentz_transform 2 3 (1/2)).1
        (lorentz_transform 2 3 (1/2)).2 (-(1/2)) = (2, 3) := by
  have h : |(1/2 : ℝ)| < 1 := by rw [abs_lt]; constructor <;> norm_num
  exact ⟨h, boost1D_roundtrip 2 3 (1/2) h⟩

/-- One plotly `Scatter` trace: coordinate lists plus the style fields
the sources set (`mode`, line/marker `color`, line width or marker size
as `width` with `none` for the library default, and whether the line is
dashed). -/
structure Trace where
  xs : List ℝ
  ys : List ℝ
  mode : String
  color : String
  width : Option ℝ
  dash : Bool

/-- The constant light-gray background grid of `create_figure`
(`dash_lorentz.py` lines 27-31): horizontal lines `y = t` and vertical
lines `x = s`, untransformed. -/
noncomputable def background_traces : List Trace :=
  (time_range.map (fun t =>
    ⟨space_range, space_range.map (fun _ => t),
     "lines", "lightgray", some (1/2), false⟩))
  ++ (space_range.map (fun s =>
    ⟨time_range.map (fun _ => s), time_range,
     "lines", "lightgray", some (1/2), false⟩))

/-- The boosted grid: for each `t` in `time_range` the red line
obtained by transforming `(t, s)` for `s` over `space_range`, then for
each `x` in `space_range` the blue line transforming `(r, x)` for `r`
over `time_range`.  This is `generate_grid_lines_2d(velocity)` of
`lorentz_visualizer.py` (lines 53-63); `create_figure` of
`dash_lorentz.py` (lines 33-40) builds the identical traces. -/
noncomputable def generate_grid_lines_2d (velocity : ℝ) : List Trace :=
  (time_range.map (fun t =>
    ⟨space_range.map (fun s => (lorentz_transform t s velocity).2),
     space_range.map (fun s => (lorentz_transform t s velocity).1),
     "lines", "red", some 1, false⟩))
  ++ (space_range.map (fun x =>
    ⟨time_range.map (fun r => (lorentz_transform r x velocity).2),
     time_range.map (fun r => (lorentz_transform r x velocity).1),
     "lines", "blue", some 1, false⟩))

/-- The two light-cone traces of `create_figure` (`dash_lorentz.py`
lines 42-45): green dashed lines with `x = time_values` and
`y = time_values` respectively `y = -time_values`, built directly from
the sample and never passed through `lorentz_transform`. -/
noncomputable def light_cone_traces : List Trace :=
  [⟨time_values, time_values, "lines", "green", none, true⟩,
   ⟨time_values, time_values.map (fun a => -a), "lines", "green", none, true⟩]

/-- The markers `create_figure` adds for the stored points
(`dash_lorentz.py` lines 47-50): each stored `(x_point, t_point)` is
transformed by `lorentz_transform(t_point, x_point, velocity)` and
emitted as a one-point marker trace. -/
noncomputable def figure_point_traces (velocity : ℝ) (points : List (ℝ × ℝ))
    (color : String) (size : ℝ) : List Trace :=
  points.map (fun p =>
    ⟨[(lorentz_transform p.2 p.1 velocity).2],
     [(lorentz_transform p.2 p.1 velocity).1],
     "markers", color, some size, false⟩)

/-- Embedding of `create_figure(velocity, points, color, size)`
(`dash_lorentz.py` lines 21-62) as the ordered list of traces it adds:
background grid, boosted grid, light cones, then point markers. -/
noncomputable def create_figure (velocity : ℝ) (points : List (ℝ × ℝ))
    (color : String) (size : ℝ) : List Trace :=
  background_traces ++ generate_grid_lines_2d velocity
    ++ light_cone_traces
    ++ figure_point_traces velocity points color size

/-- Claim C4: `create_figure` emits the two light-cone lines as the
fixed traces built directly from `time_values` (velocity-independent:
`light_cone_traces` takes no velocity, its first trace has `ys = xs`
and its second `ys = map neg xs`), and for every velocity the boost
maps any point of `x = t` to a point with `x_prime = t_prime` and any
point of `x = -t` to a point with `x_prime = -t_prime`. -/
theorem light_cones_unboosted_invariant (v : ℝ) (pts : List (ℝ × ℝ))
    (c : String) (sz t : ℝ) :
    create_figure v pts c sz
      = background_traces ++ generate_grid_lines_2d v
        ++ light_cone_traces ++ figure_point_traces v pts c sz
    ∧ light_cone_traces
      = [⟨time_values, time_values, "lines", "green", none, true⟩,
         ⟨time_values, time_values.map (fun a => -a), "lines", "green", none, true⟩]
    ∧ (lorentz_transform t t v).2 = (lorentz_transform t t v).1
    ∧ (lorentz_transform t (-t) v).2 = -((lorentz_transform t (-t) v).1) := by
  refine ⟨rfl, rfl, rfl, ?_⟩
  simp only [lorentz_transform]
  ring

/-- Embedding of the sidebar Add Point handler of
`lorentz_visualizer.py` (2D branch, lines 130-133): the new entry is
the full tuple `(x_coord, t_coord, point_color)` and it is appended
only when that exact tuple is not already in the session list.
Coordinates are embedded as exact rationals (the UI supplies multiples
of 1/2 in [-5, 5]). -/
def add_point (new_point : ℚ × ℚ × String)
    (points : List (ℚ × ℚ × String)) : List (ℚ × ℚ × String) :=
  if new_point ∈ points then points else points ++ [new_point]

/-- Embedding of the click toggle of `update_graph`
(`dash_lorentz.py` lines 109-114) on already-snapped integer
coordinates: remove the first occurrence if present
(`list.remove`), otherwise append. -/
def toggle (clicked_point : ℤ × ℤ) (points : List (ℤ × ℤ)) :
    List (ℤ × ℤ) :=
  if clicked_point ∈ points then points.erase clicked_point
  else points ++ [clicked_point]

/-- Embedding of Python's built-in `round` on an exact rational:
round-half-to-even, computed on the reduced fraction.  `f` is the floor
of `q` (`q.den > 0`), `rem/q.den` is the fractional part, and the
comparisons `2*rem` against `q.den` decide whether it is below, above,
or exactly one half. -/
def python_round (q : ℚ) : ℤ :=
  let f : ℤ := Int.fdiv q.num q.den
  let rem : ℤ := q.num - f * q.den
  if 2 * rem < (q.den : ℤ) then f
  else if (q.den : ℤ) < 2 * rem then f + 1
  else if f % 2 = 0 then f else f + 1

/-- The points-update logic of `update_graph` (`dash_lorentz.py` lines
100-114): when `clickData` is present, snap the clicked coordinates to
the nearest grid intersection by rounding and toggle that point;
when it is absent the list is returned unchanged.  The callback
receives the current `clickData` value whatever Input triggered it. -/
def update_graph_points (click_data : Option (ℚ × ℚ))
    (points : List (ℤ × ℤ)) : List (ℤ × ℤ) :=
  match click_data with
  | none => points
  | some c => toggle (python_round c.1, python_round c.2) points

/-- Embedding of the full callback `update_graph(velocity, click_data,
color, size, points)` (`dash_lorentz.py` lines 95-118): apply the
click processing to the stored points, then return the rebuilt figure
together with the updated points list. -/
noncomputable def update_graph (velocity : ℝ) (click_data : Option (ℚ × ℚ))
    (color : String) (size : ℝ) (points : List (ℤ × ℤ)) :
    List Trace × List (ℤ × ℤ) :=
  let pts := update_graph_points click_data points
  (create_figure velocity (pts.map (fun p => ((p.1 : ℝ), (p.2 : ℝ)))) color size,
   pts)

/-- Counterexample to claim C5: starting from an empty registry, adding
`(1, 2, "#800080")` and then `(1, 2, "#FF0000")` — the same coordinates
with a different color — produces two entries at the same location,
because the duplicate check of the Add Point handler compares the full
`(x, t, color)` tuple, not the coordinate pair. -/
theorem add_point_duplicate_location_cex :
    add_point ((1 : ℚ), (2 : ℚ), "#FF0000")
        (add_point ((1 : ℚ), (2 : ℚ), "#800080") [])
      = [(1, 2, "#800080"), (1, 2, "#FF0000")]
    ∧ ((add_point ((1 : ℚ), (2 : ℚ), "#FF0000")
        (add_point ((1 : ℚ), (2 : ℚ), "#800080") [])).map
          (fun p => (p.1, p.2.1)))
      = [(1, 2), (1, 2)] := by
  constructor <;> decide

/-- Claim C5 as amended: the registry never duplicates a full
`(x, t, color)` tuple — starting from a duplicate-free list the result
is duplicate-free and re-adding the same tuple is a no-op — but entries
sharing coordinates with different colors are not merged. -/
theorem add_point_tuple_identity (p : ℚ × ℚ × String)
    (pts : List (ℚ × ℚ × String)) (h : pts.Nodup) :
    (add_point p pts).Nodup
    ∧ add_point p (add_point p pts) = add_point p pts := by
  constructor
  · by_cases hp : p ∈ pts
    · simpa [add_point, hp] using h
    · simp [add_point, hp, List.nodup_append, h, List.disjoint_singleton]
  · by_cases hp : p ∈ pts <;> simp [add_point, hp]

/-- Witness for the amended C5 at `p = (1, 2, "#800080")` over the
singleton registry `[(3, 4, "#FF0000")]`. -/
theorem add_point_tuple_identity_witness :
    ([((3 : ℚ), (4 : ℚ), "#FF0000")] : List (ℚ × ℚ × String)).Nodup
    ∧ ((add_point ((1 : ℚ), (2 : ℚ), "#800080") [(3, 4, "#FF0000")]).Nodup
       ∧ add_point ((1 : ℚ), (2 : ℚ), "#800080")
           (add_point ((1 : ℚ), (2 : ℚ), "#800080") [(3, 4, "#FF0000")])
         = add_point ((1 : ℚ), (2 : ℚ), "#800080") [(3, 4, "#FF0000")]) :=
  ⟨by decide,
   add_point_tuple_identity ((1 : ℚ), (2 : ℚ), "#800080")
     [(3, 4, "#FF0000")] (by decide)⟩

/-- Claim C6 (code evaluated at the failing input): the callback body
guards only on the truthiness of `clickData`, not on which Input fired.
A recomputation cycle that still carries the retained click payload
`(1, 2)` — as every cycle after the first click does, since the
callback is also triggered by the velocity slider with `clickData`
unchanged — toggles the point `(1, 2)` off again: the registry `[(1, 2)]`
becomes `[]`.  Only a cycle whose `clickData` is absent leaves the
registry unchanged. -/
theorem stale_click_mutates_registry :
    update_graph_points (some (1, 2)) [(1, 2)] = []
    ∧ (update_graph (6/10) (some (1, 2)) "purple" 8 [(1, 2)]).2 = []
    ∧ update_graph_points none [(1, 2)] = [(1, 2)] := by
  refine ⟨by decide, ?_, by decide⟩
  show update_graph_points (some (1, 2)) [(1, 2)] = []
  decide

/-- Counterexample to claim C7: toggling `(1, 2)` twice on the registry
`[(1, 2), (3, 4)]` yields `[(3, 4), (1, 2)]` — the same contents, but
the iteration (insertion) order is not the original one, because
`remove` deletes in place while the re-add appends at the end. -/
theorem toggle_twice_order_cex :
    toggle (1, 2) (toggle (1, 2) [((1 : ℤ), (2 : ℤ)), (3, 4)])
      = [(3, 4), (1, 2)]
    ∧ toggle (1, 2) (toggle (1, 2) [((1 : ℤ), (2 : ℤ)), (3, 4)])
      ≠ [((1 : ℤ), (2 : ℤ)), (3, 4)] := by
  constructor <;> decide

/-- Helper: a list is a permutation of its eraseed element re-consed in
front, for any lawful boolean equality. -/
theorem perm_cons_erase_of_mem {α : Type} [BEq α] [LawfulBEq α] {a : α} :
    ∀ {l : List α}, a ∈ l → l.Perm (a :: l.erase a) := by
  intro l h
  induction l with
  | nil => cases h
  | cons b t ih =>
    by_cases hba : b = a
    · subst hba
      rw [List.erase_cons_head]
    · rw [List.erase_cons_tail (by simpa using hba)]
      have hat : a ∈ t := by
        rcases List.mem_cons.mp h with h1 | h1
        · exact absurd h1.symm hba
        · exact h1
      exact ((ih hat).cons b).trans (List.Perm.swap a b (t.erase a))

/-- Claim C7 as amended: on a duplicate-free registry, toggling the
same coordinate twice with no other mutation restores the registry's
contents — the result is a permutation of the original — and restores
it exactly (insertion order included) whenever the toggled coordinate
was not already present; a previously present coordinate is moved to
the end of the iteration order. -/
theorem toggle_toggle_perm (c : ℤ × ℤ) (pts : List (ℤ × ℤ))
    (h : pts.Nodup) :
    (toggle c (toggle c pts)).Perm pts
    ∧ (c ∉ pts → toggle c (toggle c pts) = pts) := by
  by_cases hc : c ∈ pts
  · have h1 : toggle c pts = pts.erase c := by simp [toggle, hc]
    have h2 : c ∉ pts.erase c := h.not_mem_erase
    have h3 : toggle c (toggle c pts) = pts.erase c ++ [c] := by
      rw [h1, toggle, if_neg h2]
    refine ⟨?_, fun hn => absurd hc hn⟩
    rw [h3]
    exact (List.perm_append_singleton c (pts.erase c)).trans
      (perm_cons_erase_of_mem hc).symm
  · have h1 : toggle c pts = pts ++ [c] := by simp [toggle, hc]
    have h2 : toggle c (pts ++ [c]) = pts := by
      rw [toggle, if_pos (by simp)]
      rw [List.erase_append_right _ hc]
      simp
    exact ⟨by rw [h1, h2], fun _ => by rw [h1, h2]⟩

/-- Witness for the amended C7 at `c = (1, 2)` over the registry
`[(3, 4)]`. -/
theorem toggle_toggle_perm_witness :
    ([((3 : ℤ), (4 : ℤ))] : List (ℤ × ℤ)).Nodup
    ∧ ((toggle (1, 2) (toggle (1, 2) [((3 : ℤ), (4 : ℤ))])).Perm [(3, 4)]
       ∧ ((1, 2) ∉ ([((3 : ℤ), (4 : ℤ))] : List (ℤ × ℤ)) →
            toggle (1, 2) (toggle (1, 2) [((3 : ℤ), (4 : ℤ))]) = [(3, 4)])) :=
  ⟨by decide, toggle_toggle_perm (1, 2) [(3, 4)] (by decide)⟩

/-- Modelled from the spec: the failure reasons of the
`AlignmentSolver` component (spec sections 4.4 and 7), which has no
implementation under `src/`. -/
inductive AlignmentFailure where
  | DegenerateAlignment
  | SuperluminalAlignment
deriving DecidableEq

/-- Modelled from the spec: the `AlignmentSolver` component (spec
section 4.4) is absent from the sources; per the spec's words it takes
two events `(x1, t1)`, `(x2, t2)`, fails with `DegenerateAlignment`
when `Δt = 0`, fails with `SuperluminalAlignment` when `|Δx/Δt| ≥ 1`,
and otherwise returns `v = Δx/Δt`. -/
def AlignmentSolver (e1 e2 : ℚ × ℚ) : Except AlignmentFailure ℚ :=
  let dt := e2.2 - e1.2
  let dx := e2.1 - e1.1
  if dt = 0 then Except.error AlignmentFailure.DegenerateAlignment
  else if 1 ≤ |dx / dt| then Except.error AlignmentFailure.SuperluminalAlignment
  else Except.ok (dx / dt)

/-- Claim C8: on two events with `Δt ≠ 0` and `|Δx/Δt| < 1` the solver
returns `v = Δx/Δt` with `|v| < 1`; on the spec's three examples it
returns `v = 1/2`, fails with `DegenerateAlignment`, and fails with
`SuperluminalAlignment` respectively. -/
theorem alignment_solver_correct (e1 e2 : ℚ × ℚ)
    (h1 : e2.2 - e1.2 ≠ 0)
    (h2 : |(e2.1 - e1.1) / (e2.2 - e1.2)| < 1) :
    AlignmentSolver e1 e2 = Except.ok ((e2.1 - e1.1) / (e2.2 - e1.2))
    ∧ |(e2.1 - e1.1) / (e2.2 - e1.2)| < 1
    ∧ AlignmentSolver (0, 0) (2, 4) = Except.ok (1/2)
    ∧ AlignmentSolver (0, 0) (1, 0)
        = Except.error AlignmentFailure.DegenerateAlignment
    ∧ AlignmentSolver (0, 0) (5, 1)
        = Except.error AlignmentFailure.SuperluminalAlignment := by
  refine ⟨?_, h2, ?_, ?_, ?_⟩
  · simp only [AlignmentSolver]
    rw [if_neg h1, if_neg (not_le.mpr h2)]
  · simp only [AlignmentSolver]
    norm_num [abs_of_pos]
  · simp only [AlignmentSolver]
    norm_num
  · simp only [AlignmentSolver]
    norm_num [abs_of_pos]

/-- Witness for C8 at `e1 = (0, 0)`, `e2 = (2, 4)`. -/
theorem alignment_solver_correct_witness :
    (((2 : ℚ), (4 : ℚ)).2 - ((0 : ℚ), (0 : ℚ)).2 ≠ 0)
    ∧ |(((2 : ℚ), (4 : ℚ)).1 - ((0 : ℚ), (0 : ℚ)).1)
        / (((2 : ℚ), (4 : ℚ)).2 - ((0 : ℚ), (0 : ℚ)).2)| < 1
    ∧ (AlignmentSolver ((0 : ℚ), (0 : ℚ)) ((2 : ℚ), (4 : ℚ))
        = Except.ok ((((2 : ℚ), (4 : ℚ)).1 - ((0 : ℚ), (0 : ℚ)).1)
            / (((2 : ℚ), (4 : ℚ)).2 - ((0 : ℚ), (0 : ℚ)).2))
       ∧ |(((2 : ℚ), (4 : ℚ)).1 - ((0 : ℚ), (0 : ℚ)).1)
            / (((2 : ℚ), (4 : ℚ)).2 - ((0 : ℚ), (0 : ℚ)).2)| < 1
       ∧ AlignmentSolver (0, 0) (2, 4) = Except.ok (1/2)
       ∧ AlignmentSolver (0, 0) (1, 0)
           = Except.error AlignmentFailure.DegenerateAlignment
       ∧ AlignmentSolver (0, 0) (5, 1)
           = Except.error AlignmentFailure.SuperluminalAlignment) := by
  refine ⟨by norm_num, by norm_num [abs_of_pos], ?_⟩
  exact alignment_solver_correct ((0 : ℚ), (0 : ℚ)) ((2 : ℚ), (4 : ℚ))
    (by norm_num) (by norm_num [abs_of_pos])

/-- A curve trace whose coordinates may contain non-finite float
samples, embedded as `none`. -/
structure CurveTrace where
  xs : List (Option ℝ)
  ys : List (Option ℝ)
  color : String

/-- One entry of the assembled `plot_data` list of
`lorentz_visualizer.py`: either an ordinary trace or the curve trace. -/
inductive PlotItem where
  | line (tr : Trace)
  | curve (c : CurveTrace)

/-- Elementwise `lorentz_transform` on possibly non-finite samples:
a non-finite input propagates to non-finite outputs, as numpy
arithmetic does. -/
noncomputable def lorentz_transform_elem (t x : Option ℝ) (v : ℝ) :
    Option ℝ × Option ℝ :=
  match t, x with
  | some t0, some x0 =>
      (some (lorentz_transform t0 x0 v).1, some (lorentz_transform t0 x0 v).2)
  | _, _ => (none, none)

/-- Embedding of the curve-plotting section of `lorentz_visualizer.py`
(lines 151-163) with curve plotting enabled and a nonempty expression.
The external sympy/numpy evaluation of the expression over `x_vals` is
taken as an argument: `Except.error e` embeds a raised exception,
`Except.ok y_vals` a returned sample array whose non-finite entries are
`none`.  On success the samples are boosted and collected into the
curve trace with no error; on an exception the handler emits the error
message and no curve trace. -/
noncomputable def curve_section (velocity : ℝ) (curve_color : String)
    (x_vals : List ℝ) (evalResult : Except String (List (Option ℝ))) :
    Option CurveTrace × Option String :=
  match evalResult with
  | Except.ok y_vals =>
      let trans := (y_vals.zip (x_vals.map some)).map
        (fun p => lorentz_transform_elem p.1 p.2 velocity)
      (some ⟨trans.map (fun q => q.2), trans.map (fun q => q.1), curve_color⟩,
       none)
  | Except.error e => (none, some ("Could not plot curve: " ++ e))

/-- The marker items the 2D branch appends for the stored points
(`lorentz_visualizer.py` lines 174-176): each `(x_point, t_point,
color)` entry is boosted and emitted as a one-point marker of size
10. -/
noncomputable def points_markers (velocity : ℝ)
    (points : List (ℚ × ℚ × String)) : List PlotItem :=
  points.map (fun p => PlotItem.line
    ⟨[(lorentz_transform (p.2.1 : ℝ) (p.1 : ℝ) velocity).2],
     [(lorentz_transform (p.2.1 : ℝ) (p.1 : ℝ) velocity).1],
     "markers", p.2.2, some 10, false⟩)

/-- Embedding of the 2D `plot_data` assembly of `lorentz_visualizer.py`
(lines 170-176): the boosted grid lines, then the curve trace when one
was produced, then the markers for the stored points. -/
noncomputable def plot_data_2d (velocity : ℝ) (curveTrace : Option CurveTrace)
    (points : List (ℚ × ℚ × String)) : List PlotItem :=
  ((generate_grid_lines_2d velocity).map PlotItem.line)
  ++ (match curveTrace with
      | some c => [PlotItem.curve c]
      | none => [])
  ++ points_markers velocity points

/-- Helper: the style/size projection of the boosted grid, at any
velocity, is 11 red width-1 lines of 11 samples followed by 11 blue
width-1 lines of 11 samples. -/
theorem grid_lines_proj (v : ℝ) :
    (generate_grid_lines_2d v).map (fun tr => (tr.color, tr.width, tr.xs.length))
      = List.replicate 11 ("red", some (1 : ℝ), 11)
        ++ List.replicate 11 ("blue", some (1 : ℝ), 11) := by
  have hsl : space_range.length = 11 := by
    rw [space_range, linspace, List.length_map, List.length_range]
  have htl : time_range.length = 11 := by
    rw [time_range, linspace, List.length_map, List.length_range]
  rw [generate_grid_lines_2d, List.map_append, List.map_map, List.map_map]
  have h1 : ((fun tr : Trace => (tr.color, tr.width, tr.xs.length))
      ∘ (fun t : ℝ =>
        (⟨space_range.map (fun s => (lorentz_transform t s v).2),
          space_range.map (fun s => (lorentz_transform t s v).1),
          "lines", "red", some 1, false⟩ : Trace)))
      = fun _ : ℝ => (("red" : String), some (1 : ℝ), (11 : ℕ)) := by
    funext t
    simp [Function.comp, List.length_map, hsl]
  have h2 : ((fun tr : Trace => (tr.color, tr.width, tr.xs.length))
      ∘ (fun x : ℝ =>
        (⟨time_range.map (fun r => (lorentz_transform r x v).2),
          time_range.map (fun r => (lorentz_transform r x v).1),
          "lines", "blue", some 1, false⟩ : Trace)))
      = fun _ : ℝ => (("blue" : String), some (1 : ℝ), (11 : ℕ)) := by
    funext x
    simp [Function.comp, List.length_map, htl]
  rw [h1, h2, List.map_const', List.map_const', hsl, htl]

/-- Counterexample to claim C9: at the valid velocity `v = 0` the
built 2D frame consists of exactly the 22 grid polylines — 11 red and
11 blue, all of line width 1 and all sampled at the 11 grid points —
so it contains no highlighted axis polylines, no `axis-highlight` tag,
and no densely sampled boosted axis lines. -/
theorem no_axis_highlight_cex :
    (generate_grid_lines_2d 0).map (fun tr => (tr.color, tr.width, tr.xs.length))
      = List.replicate 11 ("red", some (1 : ℝ), 11)
        ++ List.replicate 11 ("blue", some (1 : ℝ), 11)
    ∧ plot_data_2d 0 none [] = (generate_grid_lines_2d 0).map PlotItem.line := by
  constructor
  · exact grid_lines_proj 0
  · simp [plot_data_2d, points_markers]

/-- Claim C9 as amended: for every velocity the built frame's grid
consists of exactly 11 red and 11 blue polylines of uniform width 1,
each over the 11-point sample — there are no separately highlighted or
densely sampled axis polylines — and the boosted `t = 0` and `x = 0`
axes occur only as ordinary members of these families, since `0` is one
of the 11 sample values of both ranges. -/
theorem grid_lines_uniform (v : ℝ) :
    (generate_grid_lines_2d v).map (fun tr => (tr.color, tr.width, tr.xs.length))
      = List.replicate 11 ("red", some (1 : ℝ), 11)
        ++ List.replicate 11 ("blue", some (1 : ℝ), 11)
    ∧ (0 : ℝ) ∈ time_range ∧ (0 : ℝ) ∈ space_range := by
  refine ⟨grid_lines_proj v, ?_, ?_⟩
  · rw [time_range, linspace]
    exact List.mem_map.mpr ⟨5, List.mem_range.mpr (by norm_num), by norm_num⟩
  · rw [space_range, linspace]
    exact List.mem_map.mpr ⟨5, List.mem_range.mpr (by norm_num), by norm_num⟩

/-- Counterexample to claim C10: an evaluation that produces a
non-finite sample (embedded as `none`) is not an exception, so the
handler surfaces no error at all and happily builds the curve trace
containing the non-finite value — the failure is not surfaced as a
curve-evaluation error. -/
theorem curve_nonfinite_not_surfaced_cex :
    (curve_section 0 "#FF00FF" [0] (Except.ok [none])).2 = none
    ∧ (curve_section 0 "#FF00FF" [0] (Except.ok [none])).1
      = some ⟨[none], [none], "#FF00FF"⟩ :=
  ⟨rfl, rfl⟩

/-- Claim C10 as amended: every evaluation failure that raises an
exception is surfaced as an error message, no curve trace is produced,
and the rest of the frame — the grid lines and the existing point
markers — is still built for that cycle; a failure by non-finite
values, however, passes into the curve trace silently. -/
theorem curve_error_recoverable (v : ℝ) (cc msg : String) (xs : List ℝ)
    (pts : List (ℚ × ℚ × String)) :
    (curve_section v cc xs (Except.error msg)).2
      = some ("Could not plot curve: " ++ msg)
    ∧ (curve_section v cc xs (Except.error msg)).1 = none
    ∧ plot_data_2d v (curve_section v cc xs (Except.error msg)).1 pts
      = (generate_grid_lines_2d v).map PlotItem.line ++ points_markers v pts := by
  refine ⟨rfl, rfl, ?_⟩
  simp [plot_data_2d, curve_section]

end Lorentz
